import Mathlib

/-!
Verification of the Kenmei knowledge-base service (`kenmei_knowledge_api.py`).

Python strings are modelled as `List Char` (`Str`);  Python's substring test
`a in b` becomes a decidable contiguous-infix test, `str.lower` becomes a
character map, floats become rationals, and `datetime` values become integers
measured in hours relative to process start.  Each endpoint function of the
service is translated into a pure Lean function over the translated catalog
data, and the claimed properties are proved about those functions.
-/

namespace Kenmei

/-- Python `str`, modelled as a list of characters. -/
abbrev Str := List Char

/-- Python `a in b` on strings: `needle` occurs contiguously inside `hay`. -/
def pyIn (needle hay : Str) : Bool := decide (needle <:+: hay)

/-- Python `str.lower()` (ASCII case folding, which is all the catalog uses). -/
def pyLower (s : Str) : Str := s.map Char.toLower

/-- Python `str(n)` for a natural number. -/
def natStr (n : Nat) : Str := (Nat.repr n).toList

/-- Python truthiness for an optional string: `None` and `""` are falsy. -/
def truthy : Option Str → Bool
  | none => false
  | some s => !s.isEmpty

/-- `CellSite` record (the `coordinates` dict is flattened to `lat`/`lon`). -/
structure CellSite where
  site_id : Str
  site_name : Str
  location : Str
  technologies : List Str
  sectors : Nat
  status : Str
  coverage_radius_km : ℚ
  lat : ℚ
  lon : ℚ
deriving DecidableEq

/-- `ActiveIncident` record; times are hours relative to process start. -/
structure ActiveIncident where
  incident_id : Str
  issue_type : Str
  affected_area : Str
  affected_sites : List Str
  severity : Str
  start_time : Int
  estimated_resolution : Option Int
  status : Str
  description : Str
  affected_customers : Nat
deriving DecidableEq

/-- `ScheduledMaintenance` record; times are hours relative to process start. -/
structure ScheduledMaintenance where
  maintenance_id : Str
  sites : List Str
  scheduled_start : Int
  scheduled_end : Int
  maintenance_type : Str
  impact : Str
  affected_services : List Str
  notification_sent : Bool
deriving DecidableEq

/-- `KenmeiProduct` record. -/
structure KenmeiProduct where
  product_name : Str
  category : Str
  description : Str
  use_cases : List Str
  benefits : List Str
  url : Str
deriving DecidableEq

/-- `SimilarCase` record. -/
structure SimilarCase where
  case_id : Str
  issue_description : Str
  root_cause : Str
  solution_applied : Str
  resolution_time_hours : ℚ
  success_rate : ℚ
  location_type : Str
deriving DecidableEq

/-- `DiagnosticRequest` body. -/
structure DiagnosticRequest where
  location : Str
  issue_type : Str
  symptoms : List Str
  network_technology : Option Str
deriving DecidableEq

/-- `DiagnosticResponse` body. -/
structure DiagnosticResponse where
  context_found : Bool
  cell_sites_nearby : List CellSite
  active_incidents : List ActiveIncident
  scheduled_maintenance : List ScheduledMaintenance
  similar_cases : List SimilarCase
  recommended_products : List KenmeiProduct
  additional_context : Str
deriving DecidableEq

/-- `HTTPException` as raised by the service: a status code and a detail text. -/
structure HTTPError where
  status_code : Nat
  detail : Str
deriving DecidableEq

def vlc001 : CellSite :=
  { site_id := "VLC-001".toList
    site_name := "Valencia Centro - Ayuntamiento".toList
    location := "Plaza del Ayuntamiento, Valencia".toList
    technologies := ["4G".toList, "5G NSA".toList, "5G SA".toList]
    sectors := 3
    status := "active".toList
    coverage_radius_km := 1.2
    lat := 39.4699
    lon := -0.3763 }

def vlc002 : CellSite :=
  { site_id := "VLC-002".toList
    site_name := "Valencia Centro - Xàtiva".toList
    location := "Calle Xàtiva, Valencia".toList
    technologies := ["4G".toList, "5G NSA".toList]
    sectors := 3
    status := "degraded".toList
    coverage_radius_km := 0.8
    lat := 39.4665
    lon := -0.3769 }

def vlc003 : CellSite :=
  { site_id := "VLC-003".toList
    site_name := "Valencia Centro - Colón".toList
    location := "Plaza de Colón, Valencia".toList
    technologies := ["4G".toList, "5G NSA".toList, "5G SA".toList]
    sectors := 3
    status := "active".toList
    coverage_radius_km := 1.5
    lat := 39.4731
    lon := -0.3719 }

def ptr001 : CellSite :=
  { site_id := "PTR-001".toList
    site_name := "Paterna Polígono Industrial".toList
    location := "Polígono Industrial Vara de Quart, Paterna".toList
    technologies := ["4G".toList, "5G NSA".toList]
    sectors := 3
    status := "active".toList
    coverage_radius_km := 2.0
    lat := 39.5167
    lon := -0.4500 }

def ptr002 : CellSite :=
  { site_id := "PTR-002".toList
    site_name := "Paterna Centro Tecnológico".toList
    location := "Parc Tecnològic, Paterna".toList
    technologies := ["4G".toList, "5G NSA".toList, "5G SA".toList]
    sectors := 3
    status := "active".toList
    coverage_radius_km := 1.8
    lat := 39.5200
    lon := -0.4450 }

def madA3 : CellSite :=
  { site_id := "MAD-A3-280".toList
    site_name := "A3 Autovía - KM 280".toList
    location := "Autovía A3, KM 280".toList
    technologies := ["4G".toList, "VoLTE".toList]
    sectors := 3
    status := "active".toList
    coverage_radius_km := 3.5
    lat := 39.7500
    lon := -1.2000 }

def bcnM01 : CellSite :=
  { site_id := "BCN-M01".toList
    site_name := "Barcelona Metro L1 - Arc Triomf".toList
    location := "Metro L1, Estación Arc de Triomf".toList
    technologies := ["4G".toList, "VoLTE".toList]
    sectors := 2
    status := "active".toList
    coverage_radius_km := 0.3
    lat := 41.3908
    lon := 2.1808 }

/-- `CELL_SITES_DB`: a Python dict, modelled as an association list that
keeps the source's insertion order. -/
def CELL_SITES_DB : List (Str × List CellSite) :=
  [("valencia".toList, [vlc001, vlc002, vlc003]),
   ("paterna".toList, [ptr001, ptr002]),
   ("madrid".toList, [madA3]),
   ("barcelona".toList, [bcnM01])]

def inc1142 : ActiveIncident :=
  { incident_id := "INC-2024-1142".toList
    issue_type := "interference".toList
    affected_area := "Valencia Centro - Plaza Ayuntamiento".toList
    affected_sites := ["VLC-001".toList, "VLC-002".toList]
    severity := "high".toList
    start_time := -18
    estimated_resolution := some 6
    status := "in_progress".toList
    description := "PCI conflict detectado entre site VLC-001 sector 2 y VLC-002 sector 1 causando interferencia co-channel en banda 5G NSA. Kenmei AI ha identificado overshooting en VLC-002.".toList
    affected_customers := 1250 }

def inc1138 : ActiveIncident :=
  { incident_id := "INC-2024-1138".toList
    issue_type := "coverage".toList
    affected_area := "Paterna - Polígono Industrial Vara de Quart".toList
    affected_sites := ["PTR-001".toList]
    severity := "medium".toList
    start_time := -168
    estimated_resolution := some 48
    status := "investigating".toList
    description := "Degradación gradual de señal 5G detectada por Kenmei Geolocation. Análisis de drive test virtual muestra caída de RSRP en -10 dBm en última semana. Probable misconfiguration de tilt de antena.".toList
    affected_customers := 450 }

def ACTIVE_INCIDENTS_DB : List ActiveIncident := [inc1142, inc1138]

def maint0891 : ScheduledMaintenance :=
  { maintenance_id := "MAINT-2024-0891".toList
    sites := ["VLC-002".toList]
    scheduled_start := -20
    scheduled_end := 4
    maintenance_type := "Software upgrade + antenna optimization".toList
    impact := "Posibles cortes intermitentes de 5G NSA, fallback a 4G disponible".toList
    affected_services := ["5G NSA".toList]
    notification_sent := true }

def SCHEDULED_MAINTENANCE_DB : List ScheduledMaintenance := [maint0891]

def kenmeiAnomaly : KenmeiProduct :=
  { product_name := "Kenmei AI Agents - Anomaly Detection".toList
    category := "AI Agents".toList
    description := "Detección automática de anomalías en redes móviles usando Machine Learning. Identifica patrones anormales en KPIs antes de que afecten a clientes.".toList
    use_cases := ["Detección temprana de degradación de cobertura".toList,
                  "Identificación de interferencias (PCI conflicts, RSI)".toList,
                  "Predicción de fallos de handover".toList,
                  "Alertas automáticas de congestión de red".toList]
    benefits := ["Reduce MTTR (Mean Time To Repair) en 60%".toList,
                 "Detecta problemas 24-48h antes que métodos tradicionales".toList,
                 "Automatiza el 70% de diagnósticos de primer nivel".toList]
    url := "https://www.kenmei.ai/solutions/ai-products/anomalies".toList }

def kenmeiGeolocation : KenmeiProduct :=
  { product_name := "Kenmei Geolocation - Virtual Drive Testing".toList
    category := "AI Products".toList
    description := "Convierte datos de usuarios reales en análisis geo-localizado de calidad de red. Elimina la necesidad de drive tests físicos.".toList
    use_cases := ["Validación de rollout 5G sin coste de drive testing".toList,
                  "Mapas de calor de cobertura en tiempo real".toList,
                  "Análisis de rutas (carreteras, ferrocarril, metro)".toList,
                  "Optimización de cobertura indoor".toList]
    benefits := ["Reduce costes de drive testing en 80%".toList,
                 "Cobertura 100x mayor que drive test manual".toList,
                 "Datos actualizados continuamente vs snapshots".toList]
    url := "https://www.kenmei.ai/solutions/ai-products/geolocation".toList }

def kenmeiFabric : KenmeiProduct :=
  { product_name := "Kenmei Telco Fabric".toList
    category := "Data Fabric".toList
    description := "Unifica datos de radio, core y operaciones en una capa única query-ready. Elimina silos de datos entre vendors.".toList
    use_cases := ["Correlación de eventos entre RAN y Core".toList,
                  "Queries cross-vendor en segundos".toList,
                  "Dashboards unificados de KPIs multi-tecnología".toList,
                  "Data lake telco con semantic layer".toList]
    benefits := ["Reduce tiempo de troubleshooting de horas a minutos".toList,
                 "Elimina 80% de trabajo manual de correlación de logs".toList,
                 "Habilita uso de AI sobre datos unificados".toList]
    url := "https://www.kenmei.ai/solutions/telco-fabric".toList }

def kenmeiInterferenceDetection : KenmeiProduct :=
  { product_name := "Kenmei Interference Detection".toList
    category := "AI Products".toList
    description := "Detecta y diagnostica automáticamente interferencias en redes móviles (PCI conflicts, inter-cell, external).".toList
    use_cases := ["Detección de PCI conflicts en rollout 5G".toList,
                  "Identificación de interferencias externas (radar, military)".toList,
                  "Análisis de inter-cell interference".toList,
                  "Optimización automática de neighbor lists".toList]
    benefits := ["Identifica >95% de interferencias automáticamente".toList,
                 "Recomienda acciones correctivas específicas".toList,
                 "Integra con Telco Fabric para análisis multi-capa".toList]
    url := "https://www.kenmei.ai/solutions/ai-products/interference".toList }

/-- `KENMEI_PRODUCTS_DB`: index 0 is Anomaly Detection, index 1 Geolocation,
index 2 Telco Fabric, index 3 Interference Detection, as in the source. -/
def KENMEI_PRODUCTS_DB : List KenmeiProduct :=
  [kenmeiAnomaly, kenmeiGeolocation, kenmeiFabric, kenmeiInterferenceDetection]

def caseUrban : SimilarCase :=
  { case_id := "CASE-5G-0782".toList
    issue_description := "Pérdida de cobertura 5G en zona urbana con fallback a 4G".toList
    root_cause := "PCI conflict entre dos sites cercanos debido a expansion de red. Overshooting de antena recién instalada".toList
    solution_applied := "Ajuste de tilt mecánico de -2° en site VLC-002 sector 1 + reconfiguración de PCI de 156 a 289. Optimización MLB para balanceo de carga.".toList
    resolution_time_hours := 8.5
    success_rate := 0.98
    location_type := "urban".toList }

def caseIndustrial : SimilarCase :=
  { case_id := "CASE-5G-0654".toList
    issue_description := "Fluctuación constante de señal 5G en polígono industrial".toList
    root_cause := "Interferencia externa de radar meteorológico en banda n78 (3.5 GHz). Kenmei Interference Detection identificó patrón periódico cada 12 segundos.".toList
    solution_applied := "Reconfiguración de carrier aggregation para evitar frecuencias afectadas. Activación de filtrado adaptativo. Escalado a autoridad de telecomunicaciones para coordinación de frecuencias.".toList
    resolution_time_hours := 72.0
    success_rate := 0.92
    location_type := "industrial".toList }

def caseHighway : SimilarCase :=
  { case_id := "CASE-4G-1023".toList
    issue_description := "Baja velocidad de datos en autovía, calls OK pero datos lentos".toList
    root_cause := "Congestión de backhaul en site A3-KM280. Saturación de enlace microwave en horas pico (95% utilización). Kenmei AI detectó patrón de degradación gradual.".toList
    solution_applied := "Upgrade de backhaul de 1 Gbps a 10 Gbps fiber. Implementación de QoS en S1 interface. Activación de carrier aggregation para offload a banda adicional.".toList
    resolution_time_hours := 120.0
    success_rate := 1.0
    location_type := "highway".toList }

def caseUnderground : SimilarCase :=
  { case_id := "CASE-VLT-0445".toList
    issue_description := "Llamadas caídas en metro/túneles".toList
    root_cause := "Handover failure entre outdoor macro cell y indoor DAS system. Misconfiguration en A3 event offset. Kenmei detectó RLF rate >15%.".toList
    solution_applied := "Optimización de neighbor list, ajuste de A3 offset de 3dB a 1dB, configuración de TTT (Time To Trigger) de 320ms a 160ms. Activación de CS Fallback optimization.".toList
    resolution_time_hours := 12.0
    success_rate := 0.95
    location_type := "underground".toList }

def SIMILAR_CASES_DB : List SimilarCase :=
  [caseUrban, caseIndustrial, caseHighway, caseUnderground]

/-- The single-quote character used by Python `repr` of a string. -/
def singleQuote : Char := Char.ofNat 39

/-- Python `str(list_of_strings)`: each element single-quoted, comma-separated,
inside square brackets — used in the 404 detail message. -/
def pyStrListRepr (xs : List Str) : Str :=
  "[".toList
    ++ List.intercalate (", ".toList) (xs.map fun x => singleQuote :: (x ++ [singleQuote]))
    ++ "]".toList

/-- `GET /network/sites` (`get_cell_sites`): lowercase the key, return the
catalog bucket on an exact key match, otherwise raise 404 whose detail names
every valid key (the Python `repr` of the key list). -/
def get_cell_sites (location : Str) : Except HTTPError (List CellSite) :=
  let location_key := pyLower location
  match List.lookup location_key CELL_SITES_DB with
  | some sites => Except.ok sites
  | none =>
      Except.error
        { status_code := 404
          detail := "No cell sites found for location: ".toList ++ location
            ++ ". Available: ".toList
            ++ pyStrListRepr (CELL_SITES_DB.map Prod.fst) }

/-- First filtering stage of `get_active_incidents`: the Python
`if location:` guard (None and the empty string are falsy) followed by the
case-insensitive substring filter on `affected_area`. -/
def filterByLocation (location : Option Str) (incidents : List ActiveIncident) :
    List ActiveIncident :=
  match location with
  | none => incidents
  | some l =>
      if l.isEmpty then incidents
      else incidents.filter fun inc => pyIn (pyLower l) (pyLower inc.affected_area)

/-- Second filtering stage of `get_active_incidents`: the Python
`if severity:` guard followed by the equality filter against the lowered
severity value. -/
def filterBySeverity (severity : Option Str) (incidents : List ActiveIncident) :
    List ActiveIncident :=
  match severity with
  | none => incidents
  | some s =>
      if s.isEmpty then incidents
      else incidents.filter fun inc => inc.severity == pyLower s

/-- `GET /network/incidents` (`get_active_incidents`). -/
def get_active_incidents (location severity : Option Str) : List ActiveIncident :=
  filterBySeverity severity (filterByLocation location ACTIVE_INCIDENTS_DB)

/-- `GET /network/maintenance` (`get_scheduled_maintenance`); `now` is the
wall-clock time sampled inside the handler, in hours since process start. -/
def get_scheduled_maintenance (active_only : Bool) (now : Int) :
    List ScheduledMaintenance :=
  if active_only then
    SCHEDULED_MAINTENANCE_DB.filter fun m =>
      decide (m.scheduled_start ≤ now) && decide (now ≤ m.scheduled_end)
  else SCHEDULED_MAINTENANCE_DB

/-- `GET /solutions/products` (`get_kenmei_products`). -/
def get_kenmei_products (category : Option Str) : List KenmeiProduct :=
  match category with
  | none => KENMEI_PRODUCTS_DB
  | some c =>
      if c.isEmpty then KENMEI_PRODUCTS_DB
      else KENMEI_PRODUCTS_DB.filter fun p => pyIn (pyLower c) (pyLower p.category)

/-- The comparison passed to Python's stable `list.sort(key=success_rate,
reverse=True)`: descending success rate. -/
def successDesc (a b : SimilarCase) : Bool := decide (b.success_rate ≤ a.success_rate)

/-- `GET /solutions/cases` (`get_similar_cases`): optional equality filter on
the lowered location type, then a stable descending sort by success rate. -/
def get_similar_cases (location_type : Option Str) : List SimilarCase :=
  let cases := SIMILAR_CASES_DB
  let cases :=
    match location_type with
    | none => cases
    | some s =>
        if s.isEmpty then cases
        else cases.filter fun c => c.location_type == pyLower s
  cases.mergeSort successDesc

/-- Site resolution step of `analyze_diagnostic`: a bucket matches when its
key is a substring of the lowered request location or vice versa, and the
matching buckets' site lists are concatenated in catalog order. -/
def diagSites (location_key : Str) : List CellSite :=
  CELL_SITES_DB.flatMap fun kv =>
    if pyIn kv.1 location_key || pyIn location_key kv.1 then kv.2 else []

/-- Incident resolution step of `analyze_diagnostic`. -/
def diagIncidents (location_key : Str) : List ActiveIncident :=
  ACTIVE_INCIDENTS_DB.filter fun inc => pyIn location_key (pyLower inc.affected_area)

/-- Maintenance resolution step of `analyze_diagnostic`: active windows only. -/
def diagMaintenance (now : Int) : List ScheduledMaintenance :=
  SCHEDULED_MAINTENANCE_DB.filter fun m =>
    decide (m.scheduled_start ≤ now) && decide (now ≤ m.scheduled_end)

/-- Location-type classification of `analyze_diagnostic`: keyword heuristic
over the lowered location string, first match wins, default `urban`. -/
def locationTypeOf (location_key : Str) : Str :=
  if pyIn ("poligono".toList) location_key || pyIn ("industrial".toList) location_key then
    ("industrial".toList)
  else if pyIn ("autovia".toList) location_key || pyIn ("carretera".toList) location_key then
    ("highway".toList)
  else if pyIn ("metro".toList) location_key || pyIn ("tunel".toList) location_key then
    ("underground".toList)
  else ("urban".toList)

/-- Case resolution step of `analyze_diagnostic`: exact location-type match,
stable descending sort by success rate (before the top-3 truncation). -/
def diagCases (location_key : Str) : List SimilarCase :=
  (SIMILAR_CASES_DB.filter fun c => c.location_type == locationTypeOf location_key).mergeSort
    successDesc

/-- Product recommendation step of `analyze_diagnostic`: the two conditional
appends (catalog indices 3 and 1) followed by the unconditional append of
index 0. -/
def diagProducts (issue_type : Str) (symptoms : List Str) : List KenmeiProduct :=
  let issue_lower := pyLower issue_type
  (if pyIn ("interference".toList) issue_lower
      || pyIn ("signal".toList) (pyLower (List.intercalate (" ".toList) symptoms)) then
    [kenmeiInterferenceDetection]
  else []) ++
  (if pyIn ("coverage".toList) issue_lower || pyIn ("cobertura".toList) issue_lower then
    [kenmeiGeolocation]
  else []) ++
  [kenmeiAnomaly]

/-- The conditionally appended context lines of `analyze_diagnostic`, in
source order. -/
def diagContextParts (cell_sites : List CellSite) (active_incidents : List ActiveIncident)
    (scheduled_maintenance : List ScheduledMaintenance) (similar_cases : List SimilarCase) :
    List Str :=
  (if cell_sites.isEmpty then []
   else ["Hay ".toList ++ natStr cell_sites.length ++ " sites en el área: ".toList
          ++ List.intercalate (", ".toList) (cell_sites.map CellSite.site_id)]) ++
  (if active_incidents.isEmpty then []
   else ("⚠️ ALERTA: Hay ".toList ++ natStr active_incidents.length
          ++ " incidencias activas en la zona".toList) ::
        active_incidents.map fun inc =>
          "  - ".toList ++ inc.incident_id ++ ": ".toList
            ++ inc.description.take 150 ++ "...".toList) ++
  (if scheduled_maintenance.isEmpty then []
   else ["🔧 Hay mantenimiento programado activo que puede estar afectando".toList]) ++
  (if similar_cases.isEmpty then []
   else ["📚 Se encontraron ".toList ++ natStr similar_cases.length
          ++ " casos similares resueltos con éxito".toList])

/-- The sentinel returned when no context line qualifies. -/
def noContextSentinel : Str := "No hay contexto adicional disponible".toList

/-- `POST /diagnostics/analyze` (`analyze_diagnostic`); `now` is the
wall-clock time sampled once inside the handler. -/
def analyze_diagnostic (now : Int) (request : DiagnosticRequest) : DiagnosticResponse :=
  let location_key := pyLower request.location
  let cell_sites := diagSites location_key
  let active_incidents := diagIncidents location_key
  let scheduled_maintenance := diagMaintenance now
  let similar_cases := diagCases location_key
  let recommended_products := diagProducts request.issue_type request.symptoms
  let context_parts :=
    diagContextParts cell_sites active_incidents scheduled_maintenance similar_cases
  { context_found := decide (0 < cell_sites.length) || decide (0 < active_incidents.length)
    cell_sites_nearby := cell_sites
    active_incidents := active_incidents
    scheduled_maintenance := scheduled_maintenance
    similar_cases := similar_cases.take 3
    recommended_products := recommended_products
    additional_context :=
      if context_parts.isEmpty then noContextSentinel
      else List.intercalate ("\n".toList) context_parts }

/-- The filter the specification assigns to the case query, including the
truthiness of the optional parameter (`None` and `""` keep every case). -/
def caseMatches (location_type : Option Str) (c : SimilarCase) : Bool :=
  match location_type with
  | none => true
  | some s => s.isEmpty || c.location_type == pyLower s

theorem pyIn_iff {a b : Str} : pyIn a b = true ↔ a <:+: b := by
  simp [pyIn]

theorem flatMap_ite {α β : Type} (p : α → Bool) (f : α → List β) :
    ∀ l : List α, (l.flatMap fun x => if p x then f x else []) = (l.filter p).flatMap f
  | [] => rfl
  | x :: t => by
      cases h : p x with
      | true => simp [List.filter_cons, h, flatMap_ite p f t]
      | false => simp [List.filter_cons, h, flatMap_ite p f t]

theorem analyze_sites (now : Int) (req : DiagnosticRequest) :
    (analyze_diagnostic now req).cell_sites_nearby = diagSites (pyLower req.location) := rfl

theorem analyze_incidents (now : Int) (req : DiagnosticRequest) :
    (analyze_diagnostic now req).active_incidents = diagIncidents (pyLower req.location) := rfl

theorem analyze_maintenance (now : Int) (req : DiagnosticRequest) :
    (analyze_diagnostic now req).scheduled_maintenance = diagMaintenance now := rfl

theorem analyze_cases (now : Int) (req : DiagnosticRequest) :
    (analyze_diagnostic now req).similar_cases = (diagCases (pyLower req.location)).take 3 := rfl

theorem analyze_products (now : Int) (req : DiagnosticRequest) :
    (analyze_diagnostic now req).recommended_products =
      diagProducts req.issue_type req.symptoms := rfl

theorem analyze_context_found (now : Int) (req : DiagnosticRequest) :
    (analyze_diagnostic now req).context_found =
      (decide (0 < (diagSites (pyLower req.location)).length)
        || decide (0 < (diagIncidents (pyLower req.location)).length)) := rfl

theorem analyze_additional_context (now : Int) (req : DiagnosticRequest) :
    (analyze_diagnostic now req).additional_context =
      (if (diagContextParts (diagSites (pyLower req.location))
            (diagIncidents (pyLower req.location)) (diagMaintenance now)
            (diagCases (pyLower req.location))).isEmpty then noContextSentinel
       else List.intercalate ("\n".toList)
         (diagContextParts (diagSites (pyLower req.location))
           (diagIncidents (pyLower req.location)) (diagMaintenance now)
           (diagCases (pyLower req.location)))) := rfl

/-- C1: in `analyze_diagnostic`, a site is in `cell_sites_nearby` exactly when
some catalog bucket whose key passes the bidirectional substring test against
the lowered request location contains it; the list is the in-order
concatenation of the matching buckets, and every bucket key is already
lowercase (so key and lowered key coincide). -/
theorem sites_bidirectional_substring (now : Int) (req : DiagnosticRequest) :
    (∀ s : CellSite,
        s ∈ (analyze_diagnostic now req).cell_sites_nearby ↔
          ∃ kv, kv ∈ CELL_SITES_DB ∧
            (kv.1 <:+: pyLower req.location ∨ pyLower req.location <:+: kv.1) ∧ s ∈ kv.2) ∧
    (analyze_diagnostic now req).cell_sites_nearby =
      (CELL_SITES_DB.filter fun kv =>
          pyIn kv.1 (pyLower req.location) || pyIn (pyLower req.location) kv.1).flatMap
        Prod.snd ∧
    ∀ kv ∈ CELL_SITES_DB, pyLower kv.1 = kv.1 := by
  refine ⟨?_, ?_, by decide⟩
  · intro s
    rw [analyze_sites, diagSites, flatMap_ite]
    simp only [List.mem_flatMap, List.mem_filter, Bool.or_eq_true, pyIn_iff]
    constructor
    · rintro ⟨kv, ⟨hmem, hcond⟩, hs⟩
      exact ⟨kv, hmem, hcond, hs⟩
    · rintro ⟨kv, hmem, hcond, hs⟩
      exact ⟨kv, ⟨hmem, hcond⟩, hs⟩
  · rw [analyze_sites, diagSites, flatMap_ite]

/-- C1 witness: the request location "downtown valencia" matches the
"valencia" bucket, so its first site is returned. -/
theorem sites_bidirectional_substring_example :
    vlc001 ∈ (analyze_diagnostic 0
      { location := "downtown valencia".toList
        issue_type := "interference".toList
        symptoms := []
        network_technology := none }).cell_sites_nearby :=
  ((sites_bidirectional_substring 0 _).1 vlc001).mpr
    ⟨("valencia".toList, [vlc001, vlc002, vlc003]),
      by unfold CELL_SITES_DB; exact List.mem_cons_self _ _, by decide,
      List.mem_cons_self _ _⟩

/-- C10: the two filtering stages of `get_active_incidents` commute on the
incident catalog. -/
theorem incident_filters_commute (location severity : Option Str) :
    filterBySeverity severity (filterByLocation location ACTIVE_INCIDENTS_DB) =
      filterByLocation location (filterBySeverity severity ACTIVE_INCIDENTS_DB) := by
  cases location with
  | none => rfl
  | some l =>
      cases severity with
      | none => rfl
      | some s =>
          by_cases hl : l.isEmpty <;> by_cases hs : s.isEmpty <;>
            simp [filterByLocation, filterBySeverity, hl, hs, List.filter_filter,
              Bool.and_comm]

/-- C2 counterexample: at evaluation time 0 (process start) the single
catalog window is active, so `active_only=true` returns the very same list as
`active_only=false` — the subset is not strict. -/
theorem maintenance_active_not_strict :
    get_scheduled_maintenance true 0 = get_scheduled_maintenance false 0 := rfl

/-- C2 (amended): for every evaluation time, `active_only=true` returns a
sublist (subset in order, not necessarily strict) of the `active_only=false`
result, every window it returns contains `now`, and `active_only=false`
returns the whole catalog. -/
theorem maintenance_active_subset (now : Int) :
    List.Sublist (get_scheduled_maintenance true now) (get_scheduled_maintenance false now) ∧
    (∀ m ∈ get_scheduled_maintenance true now,
        m.scheduled_start ≤ now ∧ now ≤ m.scheduled_end) ∧
    get_scheduled_maintenance false now = SCHEDULED_MAINTENANCE_DB := by
  refine ⟨?_, ?_, rfl⟩
  · simp only [get_scheduled_maintenance, if_true]
    exact List.filter_sublist SCHEDULED_MAINTENANCE_DB
  · intro m hm
    simp only [get_scheduled_maintenance, if_true, List.mem_filter, Bool.and_eq_true,
      decide_eq_true_eq] at hm
    exact hm.2

/-- C2 witness: the theorem applied at time 0 to the window it returns. -/
theorem maintenance_active_subset_example :
    maint0891.scheduled_start ≤ (0 : Int) ∧ (0 : Int) ≤ maint0891.scheduled_end :=
  (maintenance_active_subset 0).2.1 maint0891
    (by rw [show get_scheduled_maintenance true 0 = [maint0891] from rfl]
        exact List.mem_cons_self _ _)

theorem diagProducts_eq (issue_type : Str) (symptoms : List Str) :
    diagProducts issue_type symptoms =
      (if ("interference".toList) <:+: pyLower issue_type
          ∨ "signal".toList <:+: pyLower (List.intercalate (" ".toList) symptoms) then
        [kenmeiInterferenceDetection]
      else []) ++
      (if ("coverage".toList) <:+: pyLower issue_type
          ∨ "cobertura".toList <:+: pyLower issue_type then
        [kenmeiGeolocation]
      else []) ++ [kenmeiAnomaly] := by
  by_cases h1 : "interference".toList <:+: pyLower issue_type
      ∨ "signal".toList <:+: pyLower (List.intercalate (" ".toList) symptoms) <;>
    by_cases h2 : "coverage".toList <:+: pyLower issue_type
        ∨ "cobertura".toList <:+: pyLower issue_type <;>
      simp [diagProducts, pyIn, h1, h2]

theorem diagProducts_nodup (issue_type : Str) (symptoms : List Str) :
    (diagProducts issue_type symptoms).Nodup := by
  rw [diagProducts_eq]
  split_ifs <;> decide

/-- C3 (amended): the recommendation list is exactly the two conditional
appends (Interference Detection on the interference/signal rule, Geolocation
on the coverage/cobertura rule) followed by the always-appended Anomaly
Detection product, and — because the three rules reference three distinct
catalog products — the list never contains duplicate entries. -/
theorem recommended_products_rules (now : Int) (req : DiagnosticRequest) :
    (analyze_diagnostic now req).recommended_products =
      (if ("interference".toList) <:+: pyLower req.issue_type
          ∨ "signal".toList <:+: pyLower (List.intercalate (" ".toList) req.symptoms) then
        [kenmeiInterferenceDetection]
      else []) ++
      (if ("coverage".toList) <:+: pyLower req.issue_type
          ∨ "cobertura".toList <:+: pyLower req.issue_type then
        [kenmeiGeolocation]
      else []) ++ [kenmeiAnomaly] ∧
    (analyze_diagnostic now req).recommended_products.Nodup := by
  rw [analyze_products]
  exact ⟨diagProducts_eq _ _, diagProducts_nodup _ _⟩

/-- C3 counterexample: the claim that some input produces duplicate entries is
false — no diagnostic request ever yields a duplicated recommendation. -/
theorem recommended_products_never_duplicated :
    ¬ ∃ (now : Int) (req : DiagnosticRequest),
        ¬ (analyze_diagnostic now req).recommended_products.Nodup := by
  rintro ⟨now, req, h⟩
  exact h (by rw [analyze_products]; exact diagProducts_nodup _ _)

/-- C4: the location-type classification checks its keyword groups in a fixed
first-match-wins order (industrial, then highway, then underground, default
urban); in particular a location containing both "poligono" and "metro"
classifies as industrial. -/
theorem location_classification_order (loc : Str) :
    (("poligono".toList <:+: pyLower loc ∨ "industrial".toList <:+: pyLower loc) →
        locationTypeOf (pyLower loc) = "industrial".toList) ∧
    (¬("poligono".toList <:+: pyLower loc ∨ "industrial".toList <:+: pyLower loc) →
      ("autovia".toList <:+: pyLower loc ∨ "carretera".toList <:+: pyLower loc) →
        locationTypeOf (pyLower loc) = "highway".toList) ∧
    (¬("poligono".toList <:+: pyLower loc ∨ "industrial".toList <:+: pyLower loc) →
      ¬("autovia".toList <:+: pyLower loc ∨ "carretera".toList <:+: pyLower loc) →
      ("metro".toList <:+: pyLower loc ∨ "tunel".toList <:+: pyLower loc) →
        locationTypeOf (pyLower loc) = "underground".toList) ∧
    (¬("poligono".toList <:+: pyLower loc ∨ "industrial".toList <:+: pyLower loc) →
      ¬("autovia".toList <:+: pyLower loc ∨ "carretera".toList <:+: pyLower loc) →
      ¬("metro".toList <:+: pyLower loc ∨ "tunel".toList <:+: pyLower loc) →
        locationTypeOf (pyLower loc) = "urban".toList) ∧
    (("poligono".toList <:+: pyLower loc ∧ "metro".toList <:+: pyLower loc) →
        locationTypeOf (pyLower loc) = "industrial".toList) := by
  simp only [locationTypeOf, pyIn, Bool.or_eq_true, decide_eq_true_eq]
  refine ⟨fun h1 => by rw [if_pos h1], fun h1 h2 => by rw [if_neg h1, if_pos h2],
    fun h1 h2 h3 => by rw [if_neg h1, if_neg h2, if_pos h3],
    fun h1 h2 h3 => by rw [if_neg h1, if_neg h2, if_neg h3],
    fun h => by rw [if_pos (Or.inl h.1)]⟩

/-- C4 witness: a location containing both "poligono" and "metro" keywords is
classified as industrial. -/
theorem location_classification_order_example :
    locationTypeOf (pyLower ("Poligono Sur, junto al Metro".toList)) = "industrial".toList :=
  (location_classification_order ("Poligono Sur, junto al Metro".toList)).2.2.2.2
    ⟨by decide, by decide⟩

theorem locationTypeOf_mem (lk : Str) :
    locationTypeOf lk = "industrial".toList ∨ locationTypeOf lk = "highway".toList ∨
      locationTypeOf lk = "underground".toList ∨ locationTypeOf lk = "urban".toList := by
  unfold locationTypeOf
  split_ifs <;> simp

theorem diagCases_singleton (lk : Str) :
    diagCases lk = [caseIndustrial] ∨ diagCases lk = [caseHighway] ∨
      diagCases lk = [caseUnderground] ∨ diagCases lk = [caseUrban] := by
  rcases locationTypeOf_mem lk with h | h | h | h
  · refine Or.inl ?_
    unfold diagCases
    rw [h, show (SIMILAR_CASES_DB.filter fun c => c.location_type == "industrial".toList) =
        [caseIndustrial] from rfl]
    exact List.mergeSort_singleton caseIndustrial
  · refine Or.inr (Or.inl ?_)
    unfold diagCases
    rw [h, show (SIMILAR_CASES_DB.filter fun c => c.location_type == "highway".toList) =
        [caseHighway] from rfl]
    exact List.mergeSort_singleton caseHighway
  · refine Or.inr (Or.inr (Or.inl ?_))
    unfold diagCases
    rw [h, show (SIMILAR_CASES_DB.filter fun c => c.location_type == "underground".toList) =
        [caseUnderground] from rfl]
    exact List.mergeSort_singleton caseUnderground
  · refine Or.inr (Or.inr (Or.inr ?_))
    unfold diagCases
    rw [h, show (SIMILAR_CASES_DB.filter fun c => c.location_type == "urban".toList) =
        [caseUrban] from rfl]
    exact List.mergeSort_singleton caseUrban

theorem suffix_intercalate_last (sep : Str) :
    ∀ (front : List Str) (l : Str), l <:+ List.intercalate sep (front ++ [l])
  | [], l => by
      simp [List.intercalate, List.intersperse_singleton]
  | x :: front, l => by
      have ih := suffix_intercalate_last sep front l
      obtain ⟨y, t, hyt⟩ : ∃ y t, front ++ [l] = y :: t := by
        cases front with
        | nil => exact ⟨l, [], rfl⟩
        | cons a s => exact ⟨a, s ++ [l], rfl⟩
      rw [List.cons_append, hyt]
      unfold List.intercalate at ih ⊢
      rw [List.intersperse_cons_cons, List.flatten_cons, List.flatten_cons]
      rw [hyt] at ih
      exact (ih.trans (List.suffix_append sep _)).trans (List.suffix_append x _)

/-- C5: the lowered request location always classifies to one of the four
location types, each of which matches a catalog case, so the internal matched
case list has length 1, the response's `similar_cases` is non-empty, the
case-count line occurs in `additional_context`, and the "no additional
context" sentinel is never produced by `analyze_diagnostic`. -/
theorem similar_cases_never_empty (now : Int) (req : DiagnosticRequest) :
    (diagCases (pyLower req.location)).length = 1 ∧
    (analyze_diagnostic now req).similar_cases ≠ [] ∧
    ("📚 Se encontraron 1 casos similares resueltos con éxito".toList <:+:
        (analyze_diagnostic now req).additional_context) ∧
    (analyze_diagnostic now req).additional_context ≠ noContextSentinel := by
  obtain ⟨c, hc⟩ : ∃ c, diagCases (pyLower req.location) = [c] := by
    rcases diagCases_singleton (pyLower req.location) with h | h | h | h
    exacts [⟨_, h⟩, ⟨_, h⟩, ⟨_, h⟩, ⟨_, h⟩]
  have hparts : diagContextParts (diagSites (pyLower req.location))
      (diagIncidents (pyLower req.location)) (diagMaintenance now)
      (diagCases (pyLower req.location)) =
      ((if (diagSites (pyLower req.location)).isEmpty then []
        else ["Hay ".toList ++ natStr (diagSites (pyLower req.location)).length
          ++ " sites en el área: ".toList
          ++ List.intercalate (", ".toList)
              ((diagSites (pyLower req.location)).map CellSite.site_id)]) ++
       (if (diagIncidents (pyLower req.location)).isEmpty then []
        else ("⚠️ ALERTA: Hay ".toList ++ natStr (diagIncidents (pyLower req.location)).length
          ++ " incidencias activas en la zona".toList) ::
          (diagIncidents (pyLower req.location)).map fun inc =>
            "  - ".toList ++ inc.incident_id ++ ": ".toList
              ++ inc.description.take 150 ++ "...".toList) ++
       (if (diagMaintenance now).isEmpty then []
        else ["🔧 Hay mantenimiento programado activo que puede estar afectando".toList])) ++
      ["📚 Se encontraron 1 casos similares resueltos con éxito".toList] := by
    rw [diagContextParts, hc]
    simp only [List.isEmpty_cons, List.length_cons, List.length_nil, List.append_assoc]
    rfl
  have hsuffix : "📚 Se encontraron 1 casos similares resueltos con éxito".toList <:+:
      (analyze_diagnostic now req).additional_context := by
    rw [analyze_additional_context, hparts]
    rw [if_neg (by simp [List.isEmpty_eq_true])]
    exact List.IsSuffix.isInfix (suffix_intercalate_last ("\n".toList) _ _)
  refine ⟨by rw [hc]; rfl, ?_, hsuffix, ?_⟩
  · rw [analyze_cases, hc]
    simp
  · intro hEq
    have hsuf : "📚 Se encontraron 1 casos similares resueltos con éxito".toList <:+:
        noContextSentinel := hEq ▸ hsuffix
    have := hsuf.length_le
    revert this
    decide

theorem successDesc_trans (a b c : SimilarCase) :
    successDesc a b → successDesc b c → successDesc a c := by
  simp only [successDesc, decide_eq_true_eq]
  exact fun h1 h2 => le_trans h2 h1

theorem successDesc_total (a b : SimilarCase) : successDesc a b || successDesc b a := by
  simp only [successDesc, Bool.or_eq_true, decide_eq_true_eq]
  exact le_total _ _

theorem get_similar_cases_eq (lt : Option Str) :
    get_similar_cases lt =
      (SIMILAR_CASES_DB.filter (caseMatches lt)).mergeSort successDesc := by
  cases lt with
  | none => rfl
  | some s =>
      cases hs : s.isEmpty with
      | true =>
          have hfil : SIMILAR_CASES_DB.filter (caseMatches (some s)) = SIMILAR_CASES_DB :=
            List.filter_eq_self.mpr fun a _ => by
              show (s.isEmpty || a.location_type == pyLower s) = true
              rw [hs]; rfl
          simp only [get_similar_cases]
          rw [if_pos hs, hfil]
      | false =>
          have hfil : SIMILAR_CASES_DB.filter (caseMatches (some s)) =
              SIMILAR_CASES_DB.filter fun c => c.location_type == pyLower s :=
            List.filter_congr fun a _ => by
              show (s.isEmpty || a.location_type == pyLower s) = (a.location_type == pyLower s)
              rw [hs]; rfl
          simp only [get_similar_cases]
          rw [if_neg (by simp [hs]), hfil]

/-- C6 counterexample: with the explicit empty-string filter the code skips
filtering (Python truthiness) and returns all four catalog cases, although no
catalog case has an empty location type — the claimed contract would return
an empty list. -/
theorem cases_empty_string_filter_returns_all :
    (get_similar_cases (some [])).length = 4 ∧
    (SIMILAR_CASES_DB.filter fun c => c.location_type == pyLower []).length = 0 := by
  constructor
  · rw [get_similar_cases_eq,
      show SIMILAR_CASES_DB.filter (caseMatches (some [])) = SIMILAR_CASES_DB from rfl,
      List.length_mergeSort]
    rfl
  · rfl

/-- C6 (amended): for every optional filter — where an absent or empty-string
filter keeps every case, per Python truthiness — the case query returns a
permutation of the matching catalog cases, sorted descending by success rate,
and any two matching cases with equal success rates stay in catalog order
(stability). -/
theorem cases_filter_sorted_stable (lt : Option Str) :
    List.Perm (get_similar_cases lt) (SIMILAR_CASES_DB.filter (caseMatches lt)) ∧
    (get_similar_cases lt).Pairwise (fun a b => b.success_rate ≤ a.success_rate) ∧
    (∀ a b : SimilarCase, List.Sublist [a, b] (SIMILAR_CASES_DB.filter (caseMatches lt)) →
        a.success_rate = b.success_rate → List.Sublist [a, b] (get_similar_cases lt)) := by
  rw [get_similar_cases_eq]
  refine ⟨List.mergeSort_perm _ _, ?_, ?_⟩
  · exact (List.sorted_mergeSort successDesc_trans successDesc_total _).imp
      (by intro a b h; simpa [successDesc] using h)
  · intro a b hsub heq
    exact List.pair_sublist_mergeSort successDesc_trans successDesc_total
      (by simp [successDesc, heq]) hsub

/-- C6 witness: the theorem applied to the absent filter — the full result is
sorted descending by success rate. -/
theorem cases_filter_sorted_stable_example :
    (get_similar_cases none).Pairwise (fun a b => b.success_rate ≤ a.success_rate) :=
  (cases_filter_sorted_stable none).2.1

/-- C7 counterexample: with an explicit empty-string severity filter the code
skips filtering (Python truthiness) and returns the whole catalog, although no
catalog incident has an empty severity — the claimed contract would return an
empty list. -/
theorem incidents_empty_severity_no_filter :
    get_active_incidents none (some []) = ACTIVE_INCIDENTS_DB ∧
    (ACTIVE_INCIDENTS_DB.filter fun inc => inc.severity == pyLower []).length = 0 :=
  ⟨rfl, rfl⟩

theorem filterByLocation_sublist (location : Option Str) (xs : List ActiveIncident) :
    List.Sublist (filterByLocation location xs) xs := by
  cases location with
  | none => exact List.Sublist.refl _
  | some l =>
      cases hl : l.isEmpty with
      | true => simp only [filterByLocation, hl, if_true]; exact List.Sublist.refl _
      | false => simp only [filterByLocation, hl]; exact List.filter_sublist xs

theorem filterBySeverity_sublist (severity : Option Str) (xs : List ActiveIncident) :
    List.Sublist (filterBySeverity severity xs) xs := by
  cases severity with
  | none => exact List.Sublist.refl _
  | some s =>
      cases hs : s.isEmpty with
      | true => simp only [filterBySeverity, hs, if_true]; exact List.Sublist.refl _
      | false => simp only [filterBySeverity, hs]; exact List.filter_sublist xs

theorem mem_filterByLocation (location : Option Str) (xs : List ActiveIncident)
    (inc : ActiveIncident) :
    inc ∈ filterByLocation location xs ↔
      inc ∈ xs ∧ ∀ l, location = some l → l ≠ [] →
        pyLower l <:+: pyLower inc.affected_area := by
  cases location with
  | none => simp [filterByLocation]
  | some l =>
      cases hl : l.isEmpty with
      | true =>
          have : l = [] := List.isEmpty_iff.mp hl
          subst this
          simp [filterByLocation]
      | false =>
          have hne : l ≠ [] := List.isEmpty_eq_false.mp hl
          simp [filterByLocation, hl, List.mem_filter, pyIn_iff, hne]

theorem mem_filterBySeverity (severity : Option Str) (xs : List ActiveIncident)
    (inc : ActiveIncident) :
    inc ∈ filterBySeverity severity xs ↔
      inc ∈ xs ∧ ∀ s, severity = some s → s ≠ [] → inc.severity = pyLower s := by
  cases severity with
  | none => simp [filterBySeverity]
  | some s =>
      cases hs : s.isEmpty with
      | true =>
          have : s = [] := List.isEmpty_iff.mp hs
          subst this
          simp [filterBySeverity]
      | false =>
          have hne : s ≠ [] := List.isEmpty_eq_false.mp hs
          simp [filterBySeverity, hs, List.mem_filter, hne]

/-- C7 (amended): for every optional filter pair — where an absent or
empty-string filter is a no-op, per Python truthiness — the incident query
returns exactly the catalog incidents whose lowered affected area contains the
lowered location substring and whose severity equals the lowered severity
value, in catalog insertion order (the result is a sublist of the catalog). -/
theorem incidents_filter_characterization (location severity : Option Str) :
    List.Sublist (get_active_incidents location severity) ACTIVE_INCIDENTS_DB ∧
    (∀ inc : ActiveIncident,
        inc ∈ get_active_incidents location severity ↔
          inc ∈ ACTIVE_INCIDENTS_DB ∧
            (∀ l, location = some l → l ≠ [] →
                pyLower l <:+: pyLower inc.affected_area) ∧
            (∀ s, severity = some s → s ≠ [] → inc.severity = pyLower s)) := by
  constructor
  · exact (filterBySeverity_sublist severity _).trans
      (filterByLocation_sublist location ACTIVE_INCIDENTS_DB)
  · intro inc
    rw [get_active_incidents, mem_filterBySeverity, mem_filterByLocation, and_assoc]

/-- C7 witness: the high-severity Valencia incident passes both concrete
filters (the severity value is matched case-insensitively). -/
theorem incidents_filter_characterization_example :
    inc1142 ∈ get_active_incidents (some ("Valencia".toList)) (some ("HIGH".toList)) :=
  ((incidents_filter_characterization (some ("Valencia".toList))
      (some ("HIGH".toList))).2 inc1142).mpr
    ⟨by unfold ACTIVE_INCIDENTS_DB; exact List.mem_cons_self _ _,
     fun l hl _ => by cases hl; decide,
     fun s hs _ => by cases hs; decide⟩

/-- C8: site lookup lowers the key and returns the catalog bucket exactly on a
key match; an unknown key produces the single 404 error whose detail carries
the rendered list of all valid keys (each key occurs in it); and the other
query operations return empty lists, not errors, when nothing matches. -/
theorem site_lookup_contract (location : Str) :
    (∀ kv ∈ CELL_SITES_DB, kv.1 = pyLower location →
        get_cell_sites location = Except.ok kv.2) ∧
    ((∀ kv ∈ CELL_SITES_DB, kv.1 ≠ pyLower location) →
        get_cell_sites location = Except.error
          { status_code := 404
            detail := "No cell sites found for location: ".toList ++ location
              ++ ". Available: ".toList ++ pyStrListRepr (CELL_SITES_DB.map Prod.fst) }) ∧
    (∀ kv ∈ CELL_SITES_DB, kv.1 <:+: pyStrListRepr (CELL_SITES_DB.map Prod.fst)) ∧
    (get_active_incidents (some ("atlantis".toList)) none = [] ∧
      get_scheduled_maintenance true 1000 = [] ∧
      get_kenmei_products (some ("quantum".toList)) = [] ∧
      get_similar_cases (some ("saturn".toList)) = []) := by
  refine ⟨?_, ?_, by decide, rfl, rfl, rfl, ?_⟩
  · intro kv hkv heq
    simp only [CELL_SITES_DB, List.mem_cons, List.mem_singleton,
      List.not_mem_nil, or_false] at hkv
    rcases hkv with rfl | rfl | rfl | rfl <;>
      · simp only [get_cell_sites]
        rw [← heq]
        rfl
  · intro h
    have e1 : (pyLower location == ("valencia".toList : Str)) = false :=
      beq_false_of_ne (Ne.symm (h _ (by unfold CELL_SITES_DB; exact List.mem_cons_self _ _)))
    have e2 : (pyLower location == ("paterna".toList : Str)) = false :=
      beq_false_of_ne (Ne.symm (h ("paterna".toList, [ptr001, ptr002])
        (by unfold CELL_SITES_DB; simp)))
    have e3 : (pyLower location == ("madrid".toList : Str)) = false :=
      beq_false_of_ne (Ne.symm (h ("madrid".toList, [madA3])
        (by unfold CELL_SITES_DB; simp)))
    have e4 : (pyLower location == ("barcelona".toList : Str)) = false :=
      beq_false_of_ne (Ne.symm (h ("barcelona".toList, [bcnM01])
        (by unfold CELL_SITES_DB; simp)))
    have hlookup : List.lookup (pyLower location) CELL_SITES_DB = none := by
      unfold CELL_SITES_DB
      simp only [List.lookup, e1, e2, e3, e4]
    simp only [get_cell_sites, hlookup]
  · rw [get_similar_cases_eq,
      show SIMILAR_CASES_DB.filter (caseMatches (some ("saturn".toList))) = [] from rfl]
    exact List.mergeSort_nil

/-- C8 witness: a known key (case-insensitively) returns its bucket; an
unknown key returns the 404 error carrying the valid keys. -/
theorem site_lookup_contract_example :
    get_cell_sites ("Valencia".toList) = Except.ok [vlc001, vlc002, vlc003] ∧
    get_cell_sites ("sevilla".toList) = Except.error
      { status_code := 404
        detail := "No cell sites found for location: ".toList ++ "sevilla".toList
          ++ ". Available: ".toList ++ pyStrListRepr (CELL_SITES_DB.map Prod.fst) } :=
  ⟨(site_lookup_contract ("Valencia".toList)).1 ("valencia".toList, [vlc001, vlc002, vlc003])
      (by unfold CELL_SITES_DB; exact List.mem_cons_self _ _) (by decide),
   (site_lookup_contract ("sevilla".toList)).2.1 (by decide)⟩

/-- C9: `context_found` is true exactly when the resolved site list or the
resolved incident list is non-empty, and it is unchanged by anything that
leaves those two lists unchanged (in particular by the evaluation time, which
is all the maintenance result depends on). -/
theorem context_found_iff (now now' : Int) (req req' : DiagnosticRequest)
    (hs : (analyze_diagnostic now req).cell_sites_nearby =
        (analyze_diagnostic now' req').cell_sites_nearby)
    (hi : (analyze_diagnostic now req).active_incidents =
        (analyze_diagnostic now' req').active_incidents) :
    ((analyze_diagnostic now req).context_found = true ↔
      (analyze_diagnostic now req).cell_sites_nearby ≠ [] ∨
        (analyze_diagnostic now req).active_incidents ≠ []) ∧
    (analyze_diagnostic now req).context_found =
      (analyze_diagnostic now' req').context_found := by
  constructor
  · rw [analyze_context_found, analyze_sites, analyze_incidents]
    simp [List.length_pos]
  · rw [analyze_context_found, analyze_context_found,
      ← analyze_sites now req, ← analyze_sites now' req',
      ← analyze_incidents now req, ← analyze_incidents now' req', hs, hi]

/-- C9 witness: changing only the evaluation time leaves `context_found`
untouched (the maintenance list is the only time-dependent component). -/
theorem context_found_iff_example :
    (analyze_diagnostic 0
        { location := "downtown valencia".toList
          issue_type := "coverage".toList
          symptoms := []
          network_technology := none }).context_found =
      (analyze_diagnostic 100
        { location := "downtown valencia".toList
          issue_type := "coverage".toList
          symptoms := []
          network_technology := none }).context_found :=
  (context_found_iff 0 100 _ _ rfl rfl).2

end Kenmei
